import Mathlib

/-!
# Verification of the dashboard mutation layer

A shallow embedding of `app/lib/actions.ts` and `app/verify-data/route.ts`.

Modelling conventions:
* A form submission (`FormData`) is a partial map from field names to strings;
  `formData.get(f)` returning JavaScript `null` for an absent field is modelled
  as `none`.
* The zod schemas are embedded field by field, collecting all issues of a parse
  (zod is not fail-fast across fields).  `safeParse` becomes an
  `Except <errors> <data>` value.
* The external persistence, cache-invalidation and navigation capabilities are
  modelled by an effect trace: each handler returns its result together with
  the list of effects it performed, in order.  Whether the single SQL statement
  of a handler would fail is a boolean parameter `dbFail` (the store is
  external).
* JavaScript number coercion (`Number(x)`, used by `z.coerce.number()`) is
  modelled over `ℚ`: decimal literals with optional sign, fraction and
  exponent, `Number(null) = 0` and `Number("") = 0`; strings outside this
  grammar are treated as NaN (`none`).  Binary/octal/hex literals and
  `Infinity` are outside the model, and IEEE-754 rounding of the parsed value
  is idealised away (exact rationals).
* The server clock used by `new Date().toISOString().split('T')[0]` is an
  external input, passed to `createInvoice` as the parameter `today`.
-/

set_option linter.unusedVariables false

namespace Actions

/-- A raw form submission: `formData.get f` is `none` when the field is absent
(JavaScript `null`). -/
def FormData : Type := String → Option String

/-! ## JavaScript number coercion (`z.coerce.number()` applies `Number(_)`) -/

/-- Numeric value of a list of decimal digits. -/
def decDigitsVal (l : List Char) : ℕ :=
  l.foldl (fun a c => a * 10 + (c.toNat - 48)) 0

/-- Parse the exponent part after `e`/`E`: optional sign then digits. -/
def parseExpPart : List Char → Option ℤ
  | [] => none
  | '+' :: ds => if ds ≠ [] ∧ ds.all Char.isDigit then some (decDigitsVal ds) else none
  | '-' :: ds => if ds ≠ [] ∧ ds.all Char.isDigit then some (-(decDigitsVal ds : ℤ)) else none
  | ds => if ds.all Char.isDigit then some ((decDigitsVal ds : ℤ)) else none

/-- Parse an unsigned decimal mantissa `digits [. digits]`, returning its value
and the unconsumed rest.  At least one digit must be present. -/
def parseMantissa (s : List Char) : Option (ℚ × List Char) :=
  let ip := s.takeWhile Char.isDigit
  let rest := s.dropWhile Char.isDigit
  match rest with
  | '.' :: rest2 =>
      let fp := rest2.takeWhile Char.isDigit
      let rest3 := rest2.dropWhile Char.isDigit
      if ip = [] ∧ fp = [] then none
      else some ((decDigitsVal ip : ℚ) + (decDigitsVal fp : ℚ) / (10 : ℚ) ^ fp.length, rest3)
  | _ => if ip = [] then none else some ((decDigitsVal ip : ℚ), rest)

/-- Parse an unsigned decimal literal with optional exponent. -/
def parseUnsignedNumber (s : List Char) : Option ℚ :=
  match parseMantissa s with
  | none => none
  | some (m, rest) =>
    match rest with
    | [] => some m
    | 'e' :: es => (parseExpPart es).map (fun k => m * (10 : ℚ) ^ k)
    | 'E' :: es => (parseExpPart es).map (fun k => m * (10 : ℚ) ^ k)
    | _ => none

/-- Strip leading and trailing whitespace, as `Number(_)` does before reading
the literal. -/
def jsTrim (l : List Char) : List Char :=
  ((l.dropWhile Char.isWhitespace).reverse.dropWhile Char.isWhitespace).reverse

/-- `Number(s)` for a string `s`: trim whitespace, empty string is `0`,
otherwise an optionally signed decimal literal; anything else is NaN
(`none`). -/
def jsNumberOfString (s : String) : Option ℚ :=
  match jsTrim s.data with
  | [] => some 0
  | '-' :: rest => (parseUnsignedNumber rest).map Neg.neg
  | '+' :: rest => parseUnsignedNumber rest
  | l => parseUnsignedNumber l

/-- `Number(x)` for the value obtained from `formData.get`: `Number(null) = 0`. -/
def jsNumber : Option String → Option ℚ
  | none => some 0
  | some s => jsNumberOfString s

/-! ## Customer schema (`customerSchema`)

`nameRegex` is imported from `app/lib/definitions.ts`, which is not among the
sources; the spec only says the name must match an allowed-character regular
expression.  The regex test — like the URL regex test, whose engine is the
external JavaScript `RegExp` — is modelled as a decidable predicate on strings
passed in as a parameter. -/

structure CustomerData where
  name : String
  email : String
  url : String
  deriving DecidableEq, Repr

/-- `error.flatten().fieldErrors` for the customer schema: the collected issue
messages per field (empty list = no issue for that field). -/
structure CustomerErrors where
  name : List String
  email : List String
  url : List String
  deriving DecidableEq, Repr

/-- Issues of `customerSchema.shape.name` on a `formData.get` value.  `none`
(JavaScript `null`) fails the string type check; a present string is checked
by `.min(1)` and the `nameRegex` refinement, whose issues zod accumulates. -/
def nameIssues (nameOk : String → Bool) : Option String → List String
  | none => ["Expected string, received null"]
  | some s =>
      (if s.length < 1 then ["Name must contain at least 1 character."] else [])
        ++ (if nameOk s then [] else ["Name can only have valid characters."])

/-- Issues of `customerSchema.shape.email`: `z.string({invalid_type_error:
"Invalid Email"}).optional()`.  `optional` admits only `undefined`, so `null`
hits the string type check and its custom message; any present string is
accepted. -/
def emailIssues : Option String → List String
  | none => ["Invalid Email"]
  | some _ => []

/-- Issues of `customerSchema.shape.url`: `z.string().refine(urlRegex).optional()`.
`null` fails the string type check; a present string must pass the URL-regex
refinement. -/
def urlIssues (urlOk : String → Bool) : Option String → List String
  | none => ["Expected string, received null"]
  | some s => if urlOk s then [] else ["Please enter a valid URL"]

/-- `customerSchema.safeParse {name, email, url}`. -/
def customerSafeParse (nameOk urlOk : String → Bool) (name email url : Option String) :
    Except CustomerErrors CustomerData :=
  let ne := nameIssues nameOk name
  let ee := emailIssues email
  let ue := urlIssues urlOk url
  match name, email, url with
  | some n, some e, some u =>
      if ne.isEmpty && ue.isEmpty then .ok ⟨n, e, u⟩ else .error ⟨ne, ee, ue⟩
  | _, _, _ => .error ⟨ne, ee, ue⟩

/-! ## Invoice schema (`InvoiceSchema`, `CreateInvoice = UpdateInvoice =
InvoiceSchema.omit {id, date}`) -/

structure InvoiceData where
  customerId : String
  amount : ℚ
  status : String
  deriving DecidableEq, Repr

/-- `error.flatten().fieldErrors` for the invoice form schemas. -/
structure InvoiceErrors where
  customerId : List String
  amount : List String
  status : List String
  deriving DecidableEq, Repr

/-- Issues of `InvoiceSchema.shape.customerId`: a string with a custom
invalid-type message.  `null` is not a string. -/
def customerIdIssues : Option String → List String
  | none => ["Please select a customer."]
  | some _ => []

/-- Issues of `InvoiceSchema.shape.amount`: `z.coerce.number().gt(0, ...)`.
Coercion to NaN fails the number type check with zod's default message;
a finite number must be strictly greater than `0`. -/
def amountIssues (v : Option String) : List String :=
  match jsNumber v with
  | none => ["Expected number, received nan"]
  | some q => if 0 < q then [] else ["Please enter an amount greater than $0."]

/-- Issues of `InvoiceSchema.shape.status`: `z.enum(["pending", "paid"])` with
a custom invalid-type message (used for `null`); a string outside the enum
gets zod's invalid-enum-value message. -/
def statusIssues : Option String → List String
  | none => ["Please select an invoice status."]
  | some s =>
      if s = "pending" ∨ s = "paid" then []
      else ["Invalid enum value. Expected pending or paid, received " ++ s]

/-- `CreateInvoice.safeParse {customerId, amount, status}` (also used by
`updateInvoice`, whose `UpdateInvoice` schema is identical). -/
def invoiceSafeParse (customerId amount status : Option String) :
    Except InvoiceErrors InvoiceData :=
  let ci := customerIdIssues customerId
  let ai := amountIssues amount
  let si := statusIssues status
  match customerId, jsNumber amount, status with
  | some c, some q, some s =>
      if ai.isEmpty && si.isEmpty then .ok ⟨c, q, s⟩ else .error ⟨ci, ai, si⟩
  | _, _, _ => .error ⟨ci, ai, si⟩

/-! ## Effects and handler results -/

/-- The single parameterized SQL statement a mutation handler executes, with
its bound values (in particular the value bound in a WHERE clause). -/
inductive SqlStmt where
  /-- `INSERT INTO customers (customer_id, name, url) VALUES (${email}, ${name}, ${url})` -/
  | insertCustomer (customer_id name url : String)
  /-- `UPDATE customers SET customer_id = ${email}, name = ${name}, url = ${url} WHERE id = ${email}` -/
  | updateCustomerSql (set_customer_id set_name set_url where_id : String)
  /-- `DELETE FROM customers WHERE email = ${id}` -/
  | deleteCustomerSql (where_email : String)
  /-- `INSERT INTO invoices (customer_id, amount, status, date) VALUES (...)` -/
  | insertInvoice (customer_id : String) (amount : ℚ) (status date : String)
  /-- `UPDATE invoices SET customer_id = ..., amount = ..., status = ... WHERE id = ${id}` -/
  | updateInvoiceSql (set_customer_id : String) (set_amount : ℚ) (set_status where_id : String)
  /-- `DELETE FROM invoices WHERE id = ${id}` -/
  | deleteInvoiceSql (where_id : String)
  deriving DecidableEq, Repr

/-- An observable side effect of a handler, in execution order. -/
inductive Effect where
  /-- the `sql` tagged-template call (the attempt, whether or not the store fails) -/
  | sqlExec (s : SqlStmt)
  /-- `revalidatePath p` -/
  | revalidatePath (p : String)
  /-- `redirect p` (terminal: nothing runs after it) -/
  | redirect (p : String)
  deriving DecidableEq, Repr

/-- What a handler invocation amounts to for its caller: either a returned
value — `errors` and/or `message` fields, both absent for the `undefined`
return of a successful delete — or a redirect, which terminates the response
so no value reaches the caller. -/
inductive HandlerResult (E : Type) where
  | returned (errors : Option E) (message : Option String)
  | redirected (path : String)
  deriving DecidableEq, Repr

/-- The `State` type of invoice form actions (`prevState`). -/
structure State where
  errors : Option InvoiceErrors := none
  message : Option String := none

/-- The `CustomerState` type of customer form actions (`prevState`). -/
structure CustomerState where
  errors : Option CustomerErrors := none
  message : Option String := none

/-! ## Mutation handlers

Each embedded handler takes the regex predicates and the external store
outcome (`dbFail`) as parameters and returns its result together with its
effect trace. -/

/-- `createCustomer(prevState, formData)`. -/
def createCustomer (nameOk urlOk : String → Bool) (dbFail : Bool)
    (prevState : CustomerState) (formData : FormData) :
    HandlerResult CustomerErrors × List Effect :=
  match customerSafeParse nameOk urlOk (formData "name") (formData "email") (formData "url") with
  | .error errs => (.returned (some errs) none, [])
  | .ok d =>
      let stmt := SqlStmt.insertCustomer d.email d.name d.url
      if dbFail then
        (.returned none (some "Database Error: Failed to Create Customer."), [.sqlExec stmt])
      else
        (.redirected "/dashboard/customers",
         [.sqlExec stmt, .revalidatePath "/dashboard/customers", .redirect "/dashboard/customers"])

/-- `updateCustomer(id, prevState, formData)`.  Note the source statement:
`WHERE id = ${email}` — the WHERE clause binds the validated `email` form
value, and the `id` argument is never used. -/
def updateCustomer (nameOk urlOk : String → Bool) (dbFail : Bool)
    (id : String) (prevState : CustomerState) (formData : FormData) :
    HandlerResult CustomerErrors × List Effect :=
  match customerSafeParse nameOk urlOk (formData "name") (formData "email") (formData "url") with
  | .error errs =>
      (.returned (some errs) (some "Missing Fields. Failed to Update Customer."), [])
  | .ok d =>
      let stmt := SqlStmt.updateCustomerSql d.email d.name d.url d.email
      if dbFail then
        (.returned none (some ("Database Error: Failed to update Customer " ++ d.name)),
         [.sqlExec stmt])
      else
        (.redirected "/dashboard/customers",
         [.sqlExec stmt, .revalidatePath "/dashboard/customers", .redirect "/dashboard/customers"])

/-- `deleteCustomer(id)`. -/
def deleteCustomer (dbFail : Bool) (id : String) :
    HandlerResult CustomerErrors × List Effect :=
  let stmt := SqlStmt.deleteCustomerSql id
  if dbFail then
    (.returned none (some "Database Error: Failed to delete"), [.sqlExec stmt])
  else
    (.returned none none, [.sqlExec stmt, .revalidatePath "/dashboard/customers"])

/-- `createInvoice(prevState, formData)`.  `today` is the server-clock value
`new Date().toISOString().split('T')[0]`. -/
def createInvoice (dbFail : Bool) (today : String)
    (prevState : State) (formData : FormData) :
    HandlerResult InvoiceErrors × List Effect :=
  match invoiceSafeParse (formData "customerId") (formData "amount") (formData "status") with
  | .error errs =>
      (.returned (some errs) (some "Missing Fields. Failed to Create Invoice."), [])
  | .ok d =>
      let amountInCents := d.amount * 100
      let stmt := SqlStmt.insertInvoice d.customerId amountInCents d.status today
      if dbFail then
        (.returned none (some "Database Error: Failed to Create Invoice."), [.sqlExec stmt])
      else
        (.redirected "/dashboard/invoices",
         [.sqlExec stmt, .revalidatePath "/dashboard/invoices", .redirect "/dashboard/invoices"])

/-- `updateInvoice(id, prevState, formData)`. -/
def updateInvoice (dbFail : Bool) (id : String) (prevState : State) (formData : FormData) :
    HandlerResult InvoiceErrors × List Effect :=
  match invoiceSafeParse (formData "customerId") (formData "amount") (formData "status") with
  | .error errs =>
      (.returned (some errs) (some "Missing Fields. Failed to Update Invoice."), [])
  | .ok d =>
      let amountInCents := d.amount * 100
      let stmt := SqlStmt.updateInvoiceSql d.customerId amountInCents d.status id
      if dbFail then
        (.returned none (some ("Database Error: Failed to update " ++ id)), [.sqlExec stmt])
      else
        (.redirected "/dashboard/invoices",
         [.sqlExec stmt, .revalidatePath "/dashboard/invoices", .redirect "/dashboard/invoices"])

/-- `deleteInvoice(id)`. -/
def deleteInvoice (dbFail : Bool) (id : String) :
    HandlerResult InvoiceErrors × List Effect :=
  let stmt := SqlStmt.deleteInvoiceSql id
  if dbFail then
    (.returned none (some "Database Error: Failed to delete"), [.sqlExec stmt])
  else
    (.returned none none, [.sqlExec stmt, .revalidatePath "/dashboard/invoices"])

/-! ## Authentication handler -/

/-- The outcome of the external `signIn('credentials', formData)` call:
success, a thrown `AuthError` with its `type` tag, or some other thrown
error. -/
inductive SignInOutcome where
  | success
  | authError (type : String)
  | otherError (e : String)
  deriving DecidableEq, Repr

/-- `authenticate(prevState, formData)` given the `signIn` outcome.
`Except.error` models an exception escaping the handler; a normal return is
`Except.ok`, with `none` for the `undefined` returned on success. -/
def authenticate (prevState : Option String) (formData : FormData)
    (outcome : SignInOutcome) : Except String (Option String) :=
  match outcome with
  | .success => .ok none
  | .authError t =>
      if t = "CredentialsSignin" then .ok (some "Invalid credentials.")
      else .ok (some "Something went wrong.")
  | .otherError e => .error e

end Actions

namespace VerifyData

/-- The response body of the diagnostic route: the success acknowledgment
`{message: "success"}` or the error echo `{error}` — rows are never part of
a body. -/
inductive RespBody where
  | successMsg
  | errorBody (e : String)
  deriving DecidableEq, Repr

/-- `Response.json(body, {status})`; `Response.json(body)` defaults to 200. -/
structure Resp where
  body : RespBody
  status : ℕ
  deriving DecidableEq, Repr

/-- Observable actions of the route: a statement sent over the client
connection, or a `console.log` of one row. -/
inductive RouteEffect where
  | stmt (s : String)
  | logRow (r : String)
  deriving DecidableEq, Repr

/-- The external store seen through `client.sql`: each statement yields rows
or a thrown error. -/
def DbExec : Type := String → Except String (List String)

/-- The catch block: `await client.sql ROLLBACK` then return the 500 error
response; a failing ROLLBACK makes the rejection escape the handler
(`Except.error`). -/
def catchBlock (exec : DbExec) (e : String) : Except String Resp :=
  match exec "ROLLBACK" with
  | .error e2 => .error e2
  | .ok _ => .ok ⟨.errorBody e, 500⟩

/-- `GET()` of `app/verify-data/route.ts`: BEGIN, read the `revenue` table,
log each row, COMMIT; on any failure, the catch block rolls back and answers
500.  Returns the effect trace alongside the outcome. -/
def GET (exec : DbExec) : List RouteEffect × Except String Resp :=
  match exec "BEGIN" with
  | .error e => ([.stmt "BEGIN", .stmt "ROLLBACK"], catchBlock exec e)
  | .ok _ =>
    match exec "SELECT * FROM revenue" with
    | .error e =>
        ([.stmt "BEGIN", .stmt "SELECT * FROM revenue", .stmt "ROLLBACK"], catchBlock exec e)
    | .ok rows =>
      match exec "COMMIT" with
      | .error e =>
          ([.stmt "BEGIN", .stmt "SELECT * FROM revenue"] ++ rows.map .logRow
             ++ [.stmt "COMMIT", .stmt "ROLLBACK"], catchBlock exec e)
      | .ok _ =>
          ([.stmt "BEGIN", .stmt "SELECT * FROM revenue"] ++ rows.map .logRow
             ++ [.stmt "COMMIT"], .ok ⟨.successMsg, 200⟩)

end VerifyData

/-! ## Helper predicates and lemmas -/

open Actions VerifyData

/-- String append is associative (helper for prefix reasoning on messages). -/
theorem string_append_assoc (a b c : String) : a ++ b ++ c = a ++ (b ++ c) := by
  cases a; cases b; cases c
  exact congrArg String.mk (List.append_assoc _ _ _)

/-- Effects a handler must not perform once persistence has failed. -/
def isPostMutationEffect : Effect → Bool
  | .revalidatePath _ => true
  | .redirect _ => true
  | .sqlExec _ => false

/-- Is this effect a `revalidatePath` call? -/
def isRevalidate : Effect → Bool
  | .revalidatePath _ => true
  | _ => false

/-- Is this effect a `redirect` call? -/
def isRedirectEff : Effect → Bool
  | .redirect _ => true
  | _ => false

/-- Is this effect an attempt to execute a SQL statement? -/
def isSqlExec : Effect → Bool
  | .sqlExec _ => true
  | _ => false

/-- What C2 requires of a handler invocation whose persistence call failed:
a returned result whose `message` starts with "Database Error" (and no
`errors` field), with neither cache invalidation nor redirect among the
performed effects. -/
def dbErrorSwallowed {E : Type} (r : HandlerResult E × List Effect) : Prop :=
  (∃ rest, r.1 = .returned none (some ("Database Error" ++ rest))) ∧
    r.2.all (fun e => !isPostMutationEffect e) = true

/-- A valid customer form used at concrete inputs. -/
def janeForm : FormData := fun f =>
  if f = "name" then some "Jane Doe"
  else if f = "email" then some "jane@x.com"
  else if f = "url" then some "https://x.com"
  else none

/-- A form carrying valid values for both schemas at once, used at concrete
inputs. -/
def comboForm : FormData := fun f =>
  if f = "name" then some "Jane Doe"
  else if f = "email" then some "jane@x.com"
  else if f = "url" then some "https://x.com"
  else if f = "customerId" then some "123"
  else if f = "amount" then some "1"
  else if f = "status" then some "pending"
  else none

/-- A valid invoice form (`amount = "49.99"`) used at concrete inputs. -/
def invoiceForm4999 : FormData := fun f =>
  if f = "customerId" then some "123"
  else if f = "amount" then some "49.99"
  else if f = "status" then some "pending"
  else none

/-! ## C10 -/

/-- C10: the result of `authenticate` is the same for any two `prevState`
arguments (given the same form data and `signIn` outcome), and when `signIn`
succeeds `authenticate` returns `undefined` — no message string. -/
theorem c10_authenticate_ignores_prevState (p1 p2 : Option String)
    (formData : FormData) (outcome : SignInOutcome) :
    authenticate p1 formData outcome = authenticate p2 formData outcome ∧
    authenticate p1 formData .success = .ok none :=
  ⟨rfl, rfl⟩

/-! ## C8 -/

/-- C8: `authenticate` maps a `CredentialsSignin`-classified `AuthError` to
exactly "Invalid credentials.", any other classified `AuthError` to exactly
"Something went wrong.", and re-raises an unclassified error. -/
theorem c8_authenticate_error_mapping (prevState : Option String) (formData : FormData) :
    authenticate prevState formData (.authError "CredentialsSignin") =
      .ok (some "Invalid credentials.") ∧
    (∀ t, t ≠ "CredentialsSignin" →
      authenticate prevState formData (.authError t) = .ok (some "Something went wrong.")) ∧
    (∀ e, authenticate prevState formData (.otherError e) = .error e) := by
  refine ⟨rfl, fun t ht => ?_, fun e => rfl⟩
  simp [authenticate, ht]

/-- Witness for C8 at concrete inputs. -/
theorem c8_authenticate_error_mapping_witness :
    authenticate none (fun _ => none) (.authError "CredentialsSignin") =
      .ok (some "Invalid credentials.") ∧
    authenticate none (fun _ => none) (.authError "AccessDenied") =
      .ok (some "Something went wrong.") ∧
    authenticate none (fun _ => none) (.otherError "boom") = .error "boom" := by
  obtain ⟨h1, h2, h3⟩ := c8_authenticate_error_mapping none (fun _ => none)
  exact ⟨h1, h2 "AccessDenied" (by decide), h3 "boom"⟩

/-! ## C3 -/

/-- C3 (claim refuted at a concrete input): calling `updateCustomer` with the
row identifier "row-1" and a form whose email is "jane@x.com" executes an
UPDATE whose WHERE clause binds the email form value "jane@x.com", not the
supplied id "row-1" — the source statement is `WHERE id = ${email}`. -/
theorem c3_updateCustomer_where_binds_email :
    (updateCustomer (fun _ => true) (fun _ => true) false "row-1" {} janeForm).2 =
      [.sqlExec (.updateCustomerSql "jane@x.com" "Jane Doe" "https://x.com" "jane@x.com"),
       .revalidatePath "/dashboard/customers", .redirect "/dashboard/customers"] ∧
    ("jane@x.com" : String) ≠ "row-1" := by
  constructor
  · rfl
  · decide

/-! ## C2 -/

/-- C2: for each of the six mutation handlers, when the persistence call
fails the handler returns a result whose `message` starts with
"Database Error" (no exception escapes, no `errors` field), and performs
neither cache invalidation nor redirect. -/
theorem c2_db_failure_swallowed (nameOk urlOk : String → Bool)
    (prevC : CustomerState) (prevI : State) (formData : FormData) (id today : String)
    (dc : CustomerData) (di : InvoiceData)
    (hc : customerSafeParse nameOk urlOk (formData "name") (formData "email") (formData "url")
            = .ok dc)
    (hi : invoiceSafeParse (formData "customerId") (formData "amount") (formData "status")
            = .ok di) :
    dbErrorSwallowed (createCustomer nameOk urlOk true prevC formData) ∧
    dbErrorSwallowed (updateCustomer nameOk urlOk true id prevC formData) ∧
    dbErrorSwallowed (deleteCustomer true id) ∧
    dbErrorSwallowed (createInvoice true today prevI formData) ∧
    dbErrorSwallowed (updateInvoice true id prevI formData) ∧
    dbErrorSwallowed (deleteInvoice true id) := by
  unfold createCustomer updateCustomer deleteCustomer createInvoice updateInvoice deleteInvoice
  rw [hc, hi]
  refine ⟨⟨⟨": Failed to Create Customer.", rfl⟩, rfl⟩,
          ⟨⟨": Failed to update Customer " ++ dc.name, ?_⟩, rfl⟩,
          ⟨⟨": Failed to delete", rfl⟩, rfl⟩,
          ⟨⟨": Failed to Create Invoice.", rfl⟩, rfl⟩,
          ⟨⟨": Failed to update " ++ id, ?_⟩, rfl⟩,
          ⟨⟨": Failed to delete", rfl⟩, rfl⟩⟩
  · show HandlerResult.returned none (some ("Database Error: Failed to update Customer " ++ dc.name))
      = .returned none (some ("Database Error" ++ (": Failed to update Customer " ++ dc.name)))
    rw [← string_append_assoc]; rfl
  · show HandlerResult.returned none (some ("Database Error: Failed to update " ++ id))
      = .returned none (some ("Database Error" ++ (": Failed to update " ++ id)))
    rw [← string_append_assoc]; rfl

/-- Witness for C2 at concrete inputs: a form valid for both schemas, every
handler run with a failing store. -/
theorem c2_db_failure_swallowed_witness :
    customerSafeParse (fun _ => true) (fun _ => true)
        (comboForm "name") (comboForm "email") (comboForm "url")
      = .ok ⟨"Jane Doe", "jane@x.com", "https://x.com"⟩ ∧
    invoiceSafeParse (comboForm "customerId") (comboForm "amount") (comboForm "status")
      = .ok ⟨"123", 1, "pending"⟩ ∧
    dbErrorSwallowed (createCustomer (fun _ => true) (fun _ => true) true {} comboForm) ∧
    dbErrorSwallowed (deleteInvoice true "inv-7") := by
  have hc : customerSafeParse (fun _ => true) (fun _ => true)
      (comboForm "name") (comboForm "email") (comboForm "url")
      = .ok ⟨"Jane Doe", "jane@x.com", "https://x.com"⟩ := by rfl
  have hnum : jsNumber (comboForm "amount") = some 1 := by
    show jsNumber (some "1") = some 1
    simp +decide [jsNumber, jsNumberOfString, jsTrim, parseUnsignedNumber, parseMantissa,
      parseExpPart, decDigitsVal, List.dropWhile, List.takeWhile]
  have hi : invoiceSafeParse (comboForm "customerId") (comboForm "amount") (comboForm "status")
      = .ok ⟨"123", 1, "pending"⟩ := by
    unfold invoiceSafeParse amountIssues
    rw [hnum]
    norm_num [customerIdIssues, statusIssues]
    rfl
  have H := c2_db_failure_swallowed (fun _ => true) (fun _ => true) {} {} comboForm
    "inv-7" "2026-10-12" _ _ hc hi
  exact ⟨hc, hi, H.1, H.2.2.2.2.2⟩

/-! ## C6 -/

/-- C6: on every successful mutation, the owning listing path is invalidated
exactly once, before the terminal redirect for the create/update handlers;
the delete handlers invalidate and issue no redirect. -/
theorem c6_invalidate_once_then_redirect (nameOk urlOk : String → Bool)
    (prevC : CustomerState) (prevI : State) (formData : FormData) (id today : String)
    (dc : CustomerData) (di : InvoiceData)
    (hc : customerSafeParse nameOk urlOk (formData "name") (formData "email") (formData "url")
            = .ok dc)
    (hi : invoiceSafeParse (formData "customerId") (formData "amount") (formData "status")
            = .ok di) :
    ((createCustomer nameOk urlOk false prevC formData).2 =
        [.sqlExec (.insertCustomer dc.email dc.name dc.url),
         .revalidatePath "/dashboard/customers", .redirect "/dashboard/customers"] ∧
      ((createCustomer nameOk urlOk false prevC formData).2.filter isRevalidate).length = 1) ∧
    ((updateCustomer nameOk urlOk false id prevC formData).2 =
        [.sqlExec (.updateCustomerSql dc.email dc.name dc.url dc.email),
         .revalidatePath "/dashboard/customers", .redirect "/dashboard/customers"] ∧
      ((updateCustomer nameOk urlOk false id prevC formData).2.filter isRevalidate).length = 1) ∧
    ((deleteCustomer false id).2 =
        [.sqlExec (.deleteCustomerSql id), .revalidatePath "/dashboard/customers"] ∧
      ((deleteCustomer false id).2.filter isRevalidate).length = 1 ∧
      (deleteCustomer false id).2.all (fun e => !isRedirectEff e) = true) ∧
    ((createInvoice false today prevI formData).2 =
        [.sqlExec (.insertInvoice di.customerId (di.amount * 100) di.status today),
         .revalidatePath "/dashboard/invoices", .redirect "/dashboard/invoices"] ∧
      ((createInvoice false today prevI formData).2.filter isRevalidate).length = 1) ∧
    ((updateInvoice false id prevI formData).2 =
        [.sqlExec (.updateInvoiceSql di.customerId (di.amount * 100) di.status id),
         .revalidatePath "/dashboard/invoices", .redirect "/dashboard/invoices"] ∧
      ((updateInvoice false id prevI formData).2.filter isRevalidate).length = 1) ∧
    ((deleteInvoice false id).2 =
        [.sqlExec (.deleteInvoiceSql id), .revalidatePath "/dashboard/invoices"] ∧
      ((deleteInvoice false id).2.filter isRevalidate).length = 1 ∧
      (deleteInvoice false id).2.all (fun e => !isRedirectEff e) = true) := by
  unfold createCustomer updateCustomer deleteCustomer createInvoice updateInvoice deleteInvoice
  rw [hc, hi]
  exact ⟨⟨rfl, rfl⟩, ⟨rfl, rfl⟩, ⟨rfl, rfl, rfl⟩, ⟨rfl, rfl⟩, ⟨rfl, rfl⟩, ⟨rfl, rfl, rfl⟩⟩

/-- Witness for C6 at concrete inputs. -/
theorem c6_invalidate_once_then_redirect_witness :
    (createCustomer (fun _ => true) (fun _ => true) false {} comboForm).2 =
      [.sqlExec (.insertCustomer "jane@x.com" "Jane Doe" "https://x.com"),
       .revalidatePath "/dashboard/customers", .redirect "/dashboard/customers"] ∧
    (deleteInvoice false "inv-7").2 =
      [.sqlExec (.deleteInvoiceSql "inv-7"), .revalidatePath "/dashboard/invoices"] ∧
    (deleteInvoice false "inv-7").2.all (fun e => !isRedirectEff e) = true := by
  have hnum : jsNumber (comboForm "amount") = some 1 := by
    show jsNumber (some "1") = some 1
    simp +decide [jsNumber, jsNumberOfString, jsTrim, parseUnsignedNumber, parseMantissa,
      parseExpPart, decDigitsVal, List.dropWhile, List.takeWhile]
  have hi : invoiceSafeParse (comboForm "customerId") (comboForm "amount") (comboForm "status")
      = .ok ⟨"123", 1, "pending"⟩ := by
    unfold invoiceSafeParse amountIssues
    rw [hnum]
    norm_num [customerIdIssues, statusIssues]
    rfl
  have H := c6_invalidate_once_then_redirect (fun _ => true) (fun _ => true) {} {} comboForm
    "inv-7" "2026-10-12" ⟨"Jane Doe", "jane@x.com", "https://x.com"⟩ ⟨"123", 1, "pending"⟩
    rfl hi
  exact ⟨H.1.1, H.2.2.2.2.2.1, H.2.2.2.2.2.2.2⟩

/-! ## C7 -/

/-- C7: the date persisted by a successful `createInvoice` is the
server-generated current calendar date `today` (the value of
`new Date().toISOString().split('T')[0]`); the form's "date" field is never
read — two forms agreeing on `customerId`, `amount` and `status` produce
identical behaviour. -/
theorem c7_date_is_server_generated (dbFail : Bool) (prevState : State) (today : String)
    (f g : FormData)
    (hcid : f "customerId" = g "customerId")
    (hamt : f "amount" = g "amount")
    (hst : f "status" = g "status")
    (d : InvoiceData)
    (h : invoiceSafeParse (f "customerId") (f "amount") (f "status") = .ok d) :
    createInvoice dbFail today prevState f = createInvoice dbFail today prevState g ∧
    (createInvoice dbFail today prevState f).2.head? =
      some (.sqlExec (.insertInvoice d.customerId (d.amount * 100) d.status today)) := by
  constructor
  · unfold createInvoice
    rw [hcid, hamt, hst]
  · unfold createInvoice
    rw [h]
    cases dbFail <;> rfl

/-- Witness for C7 at concrete inputs: the second form carries a client
"date" field, which changes nothing. -/
theorem c7_date_is_server_generated_witness :
    createInvoice false "2026-10-12" {} comboForm =
      createInvoice false "2026-10-12" {}
        (fun f => if f = "date" then some "1999-01-01" else comboForm f) ∧
    (createInvoice false "2026-10-12" {} comboForm).2.head? =
      some (.sqlExec (.insertInvoice "123" ((1 : ℚ) * 100) "pending" "2026-10-12")) := by
  have hnum : jsNumber (comboForm "amount") = some 1 := by
    show jsNumber (some "1") = some 1
    simp +decide [jsNumber, jsNumberOfString, jsTrim, parseUnsignedNumber, parseMantissa,
      parseExpPart, decDigitsVal, List.dropWhile, List.takeWhile]
  have hi : invoiceSafeParse (comboForm "customerId") (comboForm "amount") (comboForm "status")
      = .ok ⟨"123", 1, "pending"⟩ := by
    unfold invoiceSafeParse amountIssues
    rw [hnum]
    norm_num [customerIdIssues, statusIssues]
    rfl
  exact c7_date_is_server_generated false {} "2026-10-12" comboForm
    (fun f => if f = "date" then some "1999-01-01" else comboForm f)
    rfl rfl rfl ⟨"123", 1, "pending"⟩ hi

/-! ## C9 -/

/-- C9: the diagnostic GET handler wraps the full-table read of `revenue` in
BEGIN/COMMIT; on success it answers `{message: "success"}` with status 200
(the rows are logged, never part of the body); on any failure during the read
it issues ROLLBACK and answers status 500 with the error in the body. -/
theorem c9_verify_data_route (exec : DbExec) :
    (∀ b rows c, exec "BEGIN" = .ok b → exec "SELECT * FROM revenue" = .ok rows →
      exec "COMMIT" = .ok c →
      GET exec = ([.stmt "BEGIN", .stmt "SELECT * FROM revenue"] ++ rows.map .logRow
          ++ [.stmt "COMMIT"], .ok ⟨.successMsg, 200⟩)) ∧
    (∀ r, exec "ROLLBACK" = .ok r →
      ∀ e, (exec "BEGIN" = .error e ∨
            (∃ b, exec "BEGIN" = .ok b ∧ exec "SELECT * FROM revenue" = .error e) ∨
            (∃ b rows, exec "BEGIN" = .ok b ∧ exec "SELECT * FROM revenue" = .ok rows ∧
              exec "COMMIT" = .error e)) →
        (GET exec).2 = .ok ⟨.errorBody e, 500⟩ ∧
        RouteEffect.stmt "ROLLBACK" ∈ (GET exec).1) := by
  constructor
  · intro b rows c hb hs hc
    unfold GET
    rw [hb, hs, hc]
  · intro r hr e hcase
    unfold GET catchBlock
    rcases hcase with h | ⟨b, hb, hs⟩ | ⟨b, rows, hb, hs, hc⟩
    · rw [h, hr]; exact ⟨rfl, by simp⟩
    · rw [hb, hs, hr]; exact ⟨rfl, by simp⟩
    · rw [hb, hs, hc, hr]; exact ⟨rfl, by simp⟩

/-- An always-successful store for the route witness. -/
def goodDb : DbExec := fun s =>
  if s = "SELECT * FROM revenue" then .ok ["row1", "row2"] else .ok []

/-- A store whose table read fails, for the route witness. -/
def badDb : DbExec := fun s =>
  if s = "SELECT * FROM revenue" then .error "boom" else .ok []

/-- Witness for C9 at concrete stores. -/
theorem c9_verify_data_route_witness :
    GET goodDb =
      ([.stmt "BEGIN", .stmt "SELECT * FROM revenue", .logRow "row1", .logRow "row2",
        .stmt "COMMIT"], .ok ⟨.successMsg, 200⟩) ∧
    (GET badDb).2 = .ok ⟨.errorBody "boom", 500⟩ ∧
    RouteEffect.stmt "ROLLBACK" ∈ (GET badDb).1 := by
  refine ⟨?_, (c9_verify_data_route badDb).2 [] rfl "boom" (.inr (.inl ⟨[], rfl, rfl⟩))⟩
  have h := (c9_verify_data_route goodDb).1 [] ["row1", "row2"] [] rfl rfl rfl
  simpa using h

/-! ## C1 -/

/-- An invoice form with the fractional-cent amount "0.001". -/
def invoiceFormTenth : FormData := fun f =>
  if f = "customerId" then some "123"
  else if f = "amount" then some "0.001"
  else if f = "status" then some "pending"
  else none

/-- C1 is false as stated: submitting the valid amount "0.001" persists
`0.001 * 100 = 0.1`, while `round(0.001 * 100) = 0` — the code applies no
rounding to the scaled amount. -/
theorem c1_counterexample_fractional_cent :
    (createInvoice false "2026-10-12" {} invoiceFormTenth).2.head? =
      some (.sqlExec (.insertInvoice "123" ((1 : ℚ)/10) "pending" "2026-10-12")) ∧
    ((1 : ℚ)/10) ≠ ((round ((1 : ℚ)/1000 * 100) : ℤ) : ℚ) := by
  have hnum : jsNumber (invoiceFormTenth "amount") = some (1/1000) := by
    show jsNumber (some "0.001") = some (1/1000)
    simp +decide [jsNumber, jsNumberOfString, jsTrim, parseUnsignedNumber, parseMantissa,
      parseExpPart, decDigitsVal, List.dropWhile, List.takeWhile]
  have hp : invoiceSafeParse (invoiceFormTenth "customerId") (invoiceFormTenth "amount")
      (invoiceFormTenth "status") = .ok ⟨"123", 1/1000, "pending"⟩ := by
    unfold invoiceSafeParse amountIssues
    rw [hnum]
    norm_num [customerIdIssues, statusIssues]
    rfl
  constructor
  · unfold createInvoice
    rw [hp]
    norm_num
  · have hround : round ((1 : ℚ)/1000 * 100) = 0 := by
      have : ((1 : ℚ)/1000 * 100) = 1/10 := by norm_num
      rw [this, round_eq]
      norm_num
    rw [hround]
    norm_num

/-- C1 amended: the persisted amount is exactly `amount_input * 100`, with no
rounding applied; whenever `amount_input * 100` is an integer (amounts with at
most two decimal places, such as "49.99" ↦ 4999) this coincides with
`round(amount_input * 100)`. -/
theorem c1_amended_amount_scaled_unrounded (dbFail : Bool) (prevI : State)
    (id today : String) (f : FormData) (d : InvoiceData)
    (h : invoiceSafeParse (f "customerId") (f "amount") (f "status") = .ok d) :
    (createInvoice dbFail today prevI f).2.head? =
      some (.sqlExec (.insertInvoice d.customerId (d.amount * 100) d.status today)) ∧
    (updateInvoice dbFail id prevI f).2.head? =
      some (.sqlExec (.updateInvoiceSql d.customerId (d.amount * 100) d.status id)) ∧
    (∀ n : ℤ, d.amount * 100 = (n : ℚ) →
      d.amount * 100 = ((round (d.amount * 100) : ℤ) : ℚ)) := by
  refine ⟨?_, ?_, ?_⟩
  · unfold createInvoice; rw [h]; cases dbFail <;> rfl
  · unfold updateInvoice; rw [h]; cases dbFail <;> rfl
  · intro n hn
    rw [hn, round_intCast]

/-- Witness for the amended C1: "49.99" parses to 49.99 and is persisted as
exactly 4999 cents. -/
theorem c1_amended_amount_scaled_unrounded_witness :
    invoiceSafeParse (invoiceForm4999 "customerId") (invoiceForm4999 "amount")
      (invoiceForm4999 "status") = .ok ⟨"123", 4999/100, "pending"⟩ ∧
    (createInvoice false "2026-10-12" {} invoiceForm4999).2.head? =
      some (.sqlExec (.insertInvoice "123" ((4999 : ℚ)/100 * 100) "pending" "2026-10-12")) ∧
    ((4999 : ℚ)/100 * 100) = ((round ((4999 : ℚ)/100 * 100) : ℤ) : ℚ) ∧
    ((4999 : ℚ)/100 * 100) = 4999 := by
  have hnum : jsNumber (invoiceForm4999 "amount") = some (4999/100) := by
    show jsNumber (some "49.99") = some (4999/100)
    simp +decide [jsNumber, jsNumberOfString, jsTrim, parseUnsignedNumber, parseMantissa,
      parseExpPart, decDigitsVal, List.dropWhile, List.takeWhile]
    norm_num
  have hp : invoiceSafeParse (invoiceForm4999 "customerId") (invoiceForm4999 "amount")
      (invoiceForm4999 "status") = .ok ⟨"123", 4999/100, "pending"⟩ := by
    unfold invoiceSafeParse amountIssues
    rw [hnum]
    norm_num [customerIdIssues, statusIssues]
    rfl
  have H := c1_amended_amount_scaled_unrounded false {} "inv-7" "2026-10-12" invoiceForm4999
    ⟨"123", 4999/100, "pending"⟩ hp
  exact ⟨hp, H.1, H.2.2 4999 (by norm_num), by norm_num⟩

/-! ## Validation-failure helper lemmas -/

/-- If the name field has issues, the customer parse fails and reports all
field issues. -/
theorem customerSafeParse_error_of_name (nameOk urlOk : String → Bool)
    (name email url : Option String) (h : nameIssues nameOk name ≠ []) :
    customerSafeParse nameOk urlOk name email url =
      .error ⟨nameIssues nameOk name, emailIssues email, urlIssues urlOk url⟩ := by
  unfold customerSafeParse
  cases name <;> cases email <;> cases url <;>
    simp_all [List.isEmpty_iff]

/-- If the amount field has issues, the invoice parse fails and reports all
field issues. -/
theorem invoiceSafeParse_error_of_amount (cid amt st : Option String)
    (h : amountIssues amt ≠ []) :
    invoiceSafeParse cid amt st =
      .error ⟨customerIdIssues cid, amountIssues amt, statusIssues st⟩ := by
  unfold invoiceSafeParse
  cases cid <;> cases hj : jsNumber amt <;> cases st <;>
    simp_all [List.isEmpty_iff]

/-! ## C4 -/

/-- An invoice form with the non-numeric amount "abc". -/
def invoiceFormNaN : FormData := fun f =>
  if f = "customerId" then some "123"
  else if f = "amount" then some "abc"
  else if f = "status" then some "pending"
  else none

/-- C4 is false as stated for non-numeric amounts: submitting amount "abc"
returns an amount-scoped error, but its message is zod's invalid-type default,
not "Please enter an amount greater than $0." (persistence is still not
invoked). -/
theorem c4_counterexample_nan_message :
    (createInvoice false "2026-10-12" {} invoiceFormNaN).1 =
      .returned (some ⟨[], ["Expected number, received nan"], []⟩)
        (some "Missing Fields. Failed to Create Invoice.") ∧
    ("Please enter an amount greater than $0." ∉
      (["Expected number, received nan"] : List String)) ∧
    (createInvoice false "2026-10-12" {} invoiceFormNaN).2 = [] := by
  refine ⟨?_, by decide, ?_⟩ <;> rfl

/-- C4 amended: a validation failure returns a field-scoped error for each
invalid field and never reaches persistence; the amount-scoped message is
"Please enter an amount greater than $0." when the amount coerces to a number
≤ 0, while a non-numeric amount (NaN) gets an amount-scoped invalid-type
message instead. -/
theorem c4_amended_validation_blocks_persistence
    (nameOk urlOk : String → Bool) (dbFail : Bool) (prevC : CustomerState) (prevI : State)
    (id today : String) (f : FormData) :
    (nameIssues nameOk (f "name") ≠ [] →
      (∃ errs : CustomerErrors, errs.name ≠ [] ∧
        (createCustomer nameOk urlOk dbFail prevC f).1 = .returned (some errs) none ∧
        (updateCustomer nameOk urlOk dbFail id prevC f).1 =
          .returned (some errs) (some "Missing Fields. Failed to Update Customer.")) ∧
      (createCustomer nameOk urlOk dbFail prevC f).2 = [] ∧
      (updateCustomer nameOk urlOk dbFail id prevC f).2 = []) ∧
    (∀ q : ℚ, jsNumber (f "amount") = some q → q ≤ 0 →
      (∃ errs : InvoiceErrors, errs.amount = ["Please enter an amount greater than $0."] ∧
        (createInvoice dbFail today prevI f).1 =
          .returned (some errs) (some "Missing Fields. Failed to Create Invoice.") ∧
        (updateInvoice dbFail id prevI f).1 =
          .returned (some errs) (some "Missing Fields. Failed to Update Invoice.")) ∧
      (createInvoice dbFail today prevI f).2 = [] ∧
      (updateInvoice dbFail id prevI f).2 = []) ∧
    (jsNumber (f "amount") = none →
      (∃ errs : InvoiceErrors, errs.amount = ["Expected number, received nan"] ∧
        (createInvoice dbFail today prevI f).1 =
          .returned (some errs) (some "Missing Fields. Failed to Create Invoice.") ∧
        (updateInvoice dbFail id prevI f).1 =
          .returned (some errs) (some "Missing Fields. Failed to Update Invoice.")) ∧
      (createInvoice dbFail today prevI f).2 = [] ∧
      (updateInvoice dbFail id prevI f).2 = []) := by
  refine ⟨?_, ?_, ?_⟩
  · intro hne
    have hp := customerSafeParse_error_of_name nameOk urlOk (f "name") (f "email") (f "url") hne
    refine ⟨⟨⟨nameIssues nameOk (f "name"), emailIssues (f "email"), urlIssues urlOk (f "url")⟩,
        hne, ?_, ?_⟩, ?_, ?_⟩
    · unfold createCustomer; rw [hp]
    · unfold updateCustomer; rw [hp]
    · unfold createCustomer; rw [hp]
    · unfold updateCustomer; rw [hp]
  · intro q hq hle
    have hai : amountIssues (f "amount") = ["Please enter an amount greater than $0."] := by
      unfold amountIssues
      rw [hq]
      simp [not_lt.mpr hle]
    have hp := invoiceSafeParse_error_of_amount (f "customerId") (f "amount") (f "status")
      (by rw [hai]; simp)
    rw [hai] at hp
    refine ⟨⟨⟨customerIdIssues (f "customerId"), ["Please enter an amount greater than $0."],
        statusIssues (f "status")⟩, rfl, ?_, ?_⟩, ?_, ?_⟩
    · unfold createInvoice; rw [hp]
    · unfold updateInvoice; rw [hp]
    · unfold createInvoice; rw [hp]
    · unfold updateInvoice; rw [hp]
  · intro hnan
    have hai : amountIssues (f "amount") = ["Expected number, received nan"] := by
      unfold amountIssues
      rw [hnan]
    have hp := invoiceSafeParse_error_of_amount (f "customerId") (f "amount") (f "status")
      (by rw [hai]; simp)
    rw [hai] at hp
    refine ⟨⟨⟨customerIdIssues (f "customerId"), ["Expected number, received nan"],
        statusIssues (f "status")⟩, rfl, ?_, ?_⟩, ?_, ?_⟩
    · unfold createInvoice; rw [hp]
    · unfold updateInvoice; rw [hp]
    · unfold createInvoice; rw [hp]
    · unfold updateInvoice; rw [hp]

/-- A customer form whose name is the empty string. -/
def emptyNameForm : FormData := fun f =>
  if f = "name" then some ""
  else if f = "email" then some "jane@x.com"
  else if f = "url" then some "https://x.com"
  else none

/-- An invoice form with amount "0". -/
def zeroAmountForm : FormData := fun f =>
  if f = "customerId" then some "123"
  else if f = "amount" then some "0"
  else if f = "status" then some "pending"
  else none

/-- Witness for the amended C4 at concrete inputs: an empty name, the amount
"0", and the non-numeric amount "abc". -/
theorem c4_amended_validation_blocks_persistence_witness :
    nameIssues (fun _ => true) (emptyNameForm "name") ≠ [] ∧
    (createCustomer (fun _ => true) (fun _ => true) false {} emptyNameForm).2 = [] ∧
    jsNumber (zeroAmountForm "amount") = some 0 ∧ (0 : ℚ) ≤ 0 ∧
    (createInvoice false "2026-10-12" {} zeroAmountForm).2 = [] ∧
    jsNumber (invoiceFormNaN "amount") = none ∧
    (createInvoice false "2026-10-12" {} invoiceFormNaN).2 = [] := by
  have h1 : nameIssues (fun _ => true) (emptyNameForm "name") ≠ [] := by decide
  have h2 : jsNumber (zeroAmountForm "amount") = some 0 := by
    show jsNumber (some "0") = some 0
    simp +decide [jsNumber, jsNumberOfString, jsTrim, parseUnsignedNumber, parseMantissa,
      parseExpPart, decDigitsVal, List.dropWhile, List.takeWhile]
  have h3 : jsNumber (invoiceFormNaN "amount") = none := by decide
  have Ha := (c4_amended_validation_blocks_persistence (fun _ => true) (fun _ => true) false
    {} {} "id0" "2026-10-12" emptyNameForm).1 h1
  have Hb := (c4_amended_validation_blocks_persistence (fun _ => true) (fun _ => true) false
    {} {} "id0" "2026-10-12" zeroAmountForm).2.1 0 h2 le_rfl
  have Hc := (c4_amended_validation_blocks_persistence (fun _ => true) (fun _ => true) false
    {} {} "id0" "2026-10-12" invoiceFormNaN).2.2 h3
  exact ⟨h1, Ha.2.1, h2, le_rfl, Hb.2.1, h3, Hc.2.1⟩

/-! ## C5 -/

/-- A customer form carrying only a valid name; email and url are absent. -/
def nameOnlyForm : FormData := fun f =>
  if f = "name" then some "Jane Doe" else none

/-- C5 is false as stated: with a valid name and absent email and url fields,
validation does not succeed — `formData.get` yields `null` for the absent
fields and `z.string().optional()` accepts only `undefined`, so the handler
returns email and url type errors instead of persisting. -/
theorem c5_counterexample_absent_fields_rejected :
    (createCustomer (fun _ => true) (fun _ => true) false {} nameOnlyForm).1 =
      .returned (some ⟨[], ["Invalid Email"], ["Expected string, received null"]⟩) none ∧
    (createCustomer (fun _ => true) (fun _ => true) false {} nameOnlyForm).2 = [] := by
  exact ⟨rfl, rfl⟩

/-- C5 amended: a customer submission validates only when email and url are
both present as strings; any present email string is then accepted as-is with
no format check, while an absent email or url field (JavaScript `null`)
always makes validation fail. -/
theorem c5_amended_email_as_is_but_fields_required (nameOk urlOk : String → Bool)
    (f : FormData) (n e u : String)
    (hn : f "name" = some n) (he : f "email" = some e) (hu : f "url" = some u)
    (hname : nameIssues nameOk (some n) = []) (hurl : urlOk u = true) :
    customerSafeParse nameOk urlOk (f "name") (f "email") (f "url") = .ok ⟨n, e, u⟩ ∧
    (∀ g : FormData, (g "email" = none ∨ g "url" = none) →
      ∀ d : CustomerData,
        customerSafeParse nameOk urlOk (g "name") (g "email") (g "url") ≠ .ok d) := by
  constructor
  · rw [hn, he, hu]
    unfold customerSafeParse
    simp [hname, urlIssues, hurl]
  · intro g hg d hcontra
    unfold customerSafeParse at hcontra
    cases hgn : g "name" <;> cases hge : g "email" <;> cases hgu : g "url" <;>
      rw [hgn, hge, hgu] at hcontra <;> simp_all

/-- Witness for the amended C5 at concrete inputs: a fully present valid form
parses (the email accepted as-is), and a form with absent email cannot
parse. -/
theorem c5_amended_email_as_is_but_fields_required_witness :
    customerSafeParse (fun _ => true) (fun _ => true)
        (janeForm "name") (janeForm "email") (janeForm "url")
      = .ok ⟨"Jane Doe", "jane@x.com", "https://x.com"⟩ ∧
    customerSafeParse (fun _ => true) (fun _ => true)
        (nameOnlyForm "name") (nameOnlyForm "email") (nameOnlyForm "url")
      ≠ .ok ⟨"Jane Doe", "jane@x.com", "https://x.com"⟩ := by
  have H := c5_amended_email_as_is_but_fields_required (fun _ => true) (fun _ => true)
    janeForm "Jane Doe" "jane@x.com" "https://x.com" rfl rfl rfl rfl rfl
  exact ⟨H.1, H.2 nameOnlyForm (.inl rfl) ⟨"Jane Doe", "jane@x.com", "https://x.com"⟩⟩
